import Mathlib

/-!
Verification development for the WebScraping price-extraction engine
(`price_scrapers.py`).  The Python source is shallowly embedded: pure
helpers become Lean functions over `List Char` / `String`, the regular
expressions used by the source are translated into explicit leftmost-match
scanners, floating point prices become exact rationals, and the
browser-driven control flow is modelled by explicit state passing over an
abstract page environment.
-/

namespace PriceScrapers

/-- ASCII digit test, the `\d` class of the source regexes. -/
def isDigitC (c : Char) : Bool :=
  '0' ≤ c && c ≤ '9'

/-- ASCII whitespace, the `\s` class of the source regexes and the set of
characters removed by the Python `str.strip()` call. -/
def isSpaceC (c : Char) : Bool :=
  c = ' ' || c = '\t' || c = '\n' || c = '\r' || c = '\x0b' || c = '\x0c'

/-- Numeric value of a digit string, most significant digit first. -/
def natOfDigits (ds : List Char) : Nat :=
  ds.foldl (fun n c => 10 * n + (c.toNat - 48)) 0

/-- Exact rational value of a numeric token of shape `digits`, `digits.` or
`digits.digits`, embedding the Python `float(...)` conversion applied to
matched groups and fallback tokens (all of which have this shape). -/
def ratOfNumToken (t : List Char) : ℚ :=
  match t.dropWhile isDigitC with
  | '.' :: fracRest =>
      mkRat
        (natOfDigits (t.takeWhile isDigitC) * 10 ^ (fracRest.takeWhile isDigitC).length
          + natOfDigits (fracRest.takeWhile isDigitC))
        (10 ^ (fracRest.takeWhile isDigitC).length)
  | _ => mkRat (natOfDigits (t.takeWhile isDigitC)) 1

/-- Python `str.strip()` on ASCII whitespace. -/
def pyStrip (s : List Char) : List Char :=
  ((s.dropWhile isSpaceC).reverse.dropWhile isSpaceC).reverse

/-- Embeds `price_scrapers.py:955`: `price_text.strip().replace('\n', ' ').replace('\t', ' ')`. -/
def cleanedText (s : List Char) : List Char :=
  (pyStrip s).map (fun c => if c = '\n' then ' ' else if c = '\t' then ' ' else c)

/-- Matcher for `\$(\d+\.\d{2})` anchored at the current position,
returning the captured group. -/
def p1At : List Char → Option (List Char)
  | '$' :: r =>
      let ds := r.takeWhile isDigitC
      if ds.isEmpty then none
      else
        match r.dropWhile isDigitC with
        | '.' :: a :: b :: _ =>
            if isDigitC a && isDigitC b then some (ds ++ '.' :: a :: b :: []) else none
        | _ => none
  | _ => none

/-- Matcher for `\$(\d+)` anchored at the current position. -/
def p2At : List Char → Option (List Char)
  | '$' :: r =>
      let ds := r.takeWhile isDigitC
      if ds.isEmpty then none else some ds
  | _ => none

/-- Matcher for `(\d+\.\d{2})\s*\$` anchored at the current position. -/
def p3At (s : List Char) : Option (List Char) :=
  let ds := s.takeWhile isDigitC
  if ds.isEmpty then none
  else
    match s.dropWhile isDigitC with
    | '.' :: a :: b :: r2 =>
        if isDigitC a && isDigitC b then
          match r2.dropWhile isSpaceC with
          | '$' :: _ => some (ds ++ '.' :: a :: b :: [])
          | _ => none
        else none
    | _ => none

/-- Matcher for `(\d+)\s*\$` anchored at the current position. -/
def p4At (s : List Char) : Option (List Char) :=
  let ds := s.takeWhile isDigitC
  if ds.isEmpty then none
  else
    match (s.dropWhile isDigitC).dropWhile isSpaceC with
    | '$' :: _ => some ds
    | _ => none

/-- Matcher for `AUD\s*(\d+\.\d{2})` anchored at the current position. -/
def p5At : List Char → Option (List Char)
  | 'A' :: 'U' :: 'D' :: r =>
      let r1 := r.dropWhile isSpaceC
      let ds := r1.takeWhile isDigitC
      if ds.isEmpty then none
      else
        match r1.dropWhile isDigitC with
        | '.' :: a :: b :: _ =>
            if isDigitC a && isDigitC b then some (ds ++ '.' :: a :: b :: []) else none
        | _ => none
  | _ => none

/-- Matcher for `AUD\s*(\d+)` anchored at the current position. -/
def p6At : List Char → Option (List Char)
  | 'A' :: 'U' :: 'D' :: r =>
      let r1 := r.dropWhile isSpaceC
      let ds := r1.takeWhile isDigitC
      if ds.isEmpty then none else some ds
  | _ => none

/-- Matcher for `(\d+\.\d{2})` anchored at the current position. -/
def p7At (s : List Char) : Option (List Char) :=
  let ds := s.takeWhile isDigitC
  if ds.isEmpty then none
  else
    match s.dropWhile isDigitC with
    | '.' :: a :: b :: _ =>
        if isDigitC a && isDigitC b then some (ds ++ '.' :: a :: b :: []) else none
    | _ => none

/-- Matcher for `(\d+)` anchored at the current position. -/
def p8At (s : List Char) : Option (List Char) :=
  let ds := s.takeWhile isDigitC
  if ds.isEmpty then none else some ds

/-- Matcher for the IGA regex `\$(\d+\.?\d*)` anchored at the current
position (`price_scrapers.py:106`): greedy digits, an optional dot, then
greedy digits. -/
def igaPriceAt : List Char → Option (List Char)
  | '$' :: r =>
      let ds := r.takeWhile isDigitC
      if ds.isEmpty then none
      else
        match r.dropWhile isDigitC with
        | '.' :: r2 => some (ds ++ '.' :: r2.takeWhile isDigitC)
        | _ => some ds
  | _ => none

/-- Embeds `re.search` semantics: try the anchored matcher at each position, left
to right, returning the first captured group. -/
def searchFrom (m : List Char → Option (List Char)) : List Char → Option (List Char)
  | [] => m []
  | c :: t =>
      match m (c :: t) with
      | some g => some g
      | none => searchFrom m t

/-- Scanner state and step for `re.findall(r'\d+\.?\d*', s)`
(`price_scrapers.py:984`): tokens are greedy digit runs with one optional
dot; the accumulator holds the token built so far (reversed) and whether
its dot was consumed. -/
def numScan : List Char → Option (List Char × Bool) → List (List Char)
  | [], none => []
  | [], some (acc, _) => [acc.reverse]
  | c :: t, none =>
      if isDigitC c then numScan t (some ([c], false))
      else numScan t none
  | c :: t, some (acc, sawDot) =>
      if isDigitC c then numScan t (some (c :: acc, sawDot))
      else if c = '.' && !sawDot then numScan t (some ('.' :: acc, true))
      else acc.reverse :: numScan t none

/-- All numeric tokens of the fallback scan, in order. -/
def findNums (s : List Char) : List (List Char) :=
  numScan s none

/-- The range guard of `clean_price_text` (`price_scrapers.py:977,988`):
`0.01 <= price_value <= 999.99`, with the float comparison embedded as an
exact rational comparison. -/
def acceptPrice (v : ℚ) : Option ℚ :=
  if mkRat 1 100 ≤ v ∧ v ≤ mkRat 99999 100 then some v else none

/-- The pattern loop of `clean_price_text` (`price_scrapers.py:969-980`):
for each pattern in order, search; on a match parse the group and return
it when in range, otherwise continue with the next pattern. -/
def tryPatterns : List (List Char → Option (List Char)) → List Char → Option ℚ
  | [], _ => none
  | m :: ms, s =>
      match searchFrom m s with
      | some g =>
          match acceptPrice (ratOfNumToken g) with
          | some v => some v
          | none => tryPatterns ms s
      | none => tryPatterns ms s

/-- The `price_patterns` list of `price_scrapers.py:958-967`, in source
order. -/
def pricePatterns : List (List Char → Option (List Char)) :=
  [p1At, p2At, p3At, p4At, p5At, p6At, p7At, p8At]

/-- The fallback loop of `clean_price_text` (`price_scrapers.py:984-991`):
return the first numeric token whose value is in range. -/
def firstAccepted : List (List Char) → Option ℚ
  | [] => none
  | t :: ts =>
      match acceptPrice (ratOfNumToken t) with
      | some v => some v
      | none => firstAccepted ts

/-- Embeds `clean_price_text` (`price_scrapers.py:940-996`): empty input is
falsy and yields nothing; otherwise clean the text, run the prioritized
pattern ladder, then the numeric-substring fallback. -/
def cleanPriceText (s : String) : Option ℚ :=
  match s.toList with
  | [] => none
  | l =>
      match tryPatterns pricePatterns (cleanedText l) with
      | some v => some v
      | none => firstAccepted (findNums (cleanedText l))

/-- Normalizer restated from the specification wording (section 4.1), to
be compared with `cleanPriceText`: collect the prioritized patterns whose
leftmost match parses to an in-range value and accept the first; if none,
scan all numeric substrings and accept the first in-range one. -/
def normalizeSpec (s : String) : Option ℚ :=
  match s.toList with
  | [] => none
  | l =>
      match pricePatterns.filterMap
          (fun m => (searchFrom m (cleanedText l)).bind (fun g => acceptPrice (ratOfNumToken g))) with
      | v :: _ => some v
      | [] => ((findNums (cleanedText l)).filterMap (fun t => acceptPrice (ratOfNumToken t))).head?

/-- The result record built by every adapter and by the orchestrator
(`price_scrapers.py:28-34` and analogues), with the float price embedded
as a rational. -/
structure ScrapeResult where
  price : Option ℚ
  currency : String
  status : String
  message : String
  store : String
deriving DecidableEq, Repr

/-- Bool version of list membership of a character. -/
def containsChar (c : Char) : List Char → Bool
  | [] => false
  | a :: t => a = c || containsChar c t

/-- Bool substring containment, used to state "message contains ...". -/
def containsSub (needle : List Char) : List Char → Bool
  | [] => needle.isEmpty
  | a :: t => needle.isPrefixOf (a :: t) || containsSub needle t

/-- The IGA selector scan (`price_scrapers.py:89-102`), over the
concatenated text contents of the matched elements in selector order:
the first text containing a dollar sign whose stripped form is shorter
than 20 characters is kept, stripped. -/
def igaPickPriceText : List String → Option String
  | [] => none
  | t :: ts =>
      if !t.toList.isEmpty && containsChar '$' t.toList && (pyStrip t.toList).length < 20 then
        some (String.mk (pyStrip t.toList))
      else igaPickPriceText ts

/-- The IGA price parse (`price_scrapers.py:106-108`): search
`\$(\d+\.?\d*)` and convert the group with `float`, with no range
validation. -/
def igaParsePrice (t : List Char) : Option ℚ :=
  (searchFrom igaPriceAt t).map ratOfNumToken

/-- The IGA result assembly (`price_scrapers.py:104-115`), given the text
contents seen by the selector scan. -/
def igaResultOfTexts (texts : List String) : ScrapeResult :=
  match igaPickPriceText texts with
  | some pt =>
      match igaParsePrice pt.toList with
      | some v =>
          { price := some v, currency := "$", status := "success",
            message := "Price successfully scraped", store := "IGA" }
      | none =>
          { price := none, currency := "$", status := "error",
            message := "Could not parse price from text: " ++ pt, store := "IGA" }
  | none =>
      { price := none, currency := "$", status := "error",
        message := "Price element not found on page", store := "IGA" }

/-- The Coles result assembly from a found price text
(`price_scrapers.py:305-314`): the price comes from `clean_price_text`. -/
def colesResultOfPriceText (pt : String) : ScrapeResult :=
  match cleanPriceText pt with
  | some v =>
      { price := some v, currency := "$", status := "success",
        message := "Price successfully scraped", store := "Coles" }
  | none =>
      { price := none, currency := "$", status := "error",
        message := "Could not parse price from text: " ++ pt, store := "Coles" }

/-- The Woolworths result assembly from a found price text
(`price_scrapers.py:771-779`): the price comes from `clean_price_text`. -/
def woolworthsResultOfPriceText (pt : String) : ScrapeResult :=
  match cleanPriceText pt with
  | some v =>
      { price := some v, currency := "$", status := "success",
        message := "Price successfully scraped", store := "Woolworths" }
  | none =>
      { price := none, currency := "$", status := "error",
        message := "Could not parse price from text: " ++ pt, store := "Woolworths" }

/-- One `page.goto` invocation: target URL, the `wait_until` condition
passed, and the timeout in milliseconds. -/
structure NavStep where
  url : String
  waitUntil : Option String
  timeout : Nat
deriving DecidableEq, Repr

/-- The page environment for navigation: `none` means the goto call
succeeds, `some m` means it raises an exception with message `m`. -/
def NavEnv : Type := NavStep → Option String

/-- The IGA navigation (`price_scrapers.py:62-67`): a single goto with
`wait_until='domcontentloaded'` and timeout 30000; on failure the raised
`Navigation failed` exception reaches the outer handler
(`price_scrapers.py:117-119`), which records an error result, and the
extraction strategies never run.  Output: goto calls made, whether
extraction ran, and the final result (`extract` abstracts the rest of the
successful path). -/
def igaAdapterNav (env : NavEnv) (url : String) (extract : ScrapeResult) :
    List NavStep × Bool × ScrapeResult :=
  match env { url := url, waitUntil := some "domcontentloaded", timeout := 30000 } with
  | none =>
      ([{ url := url, waitUntil := some "domcontentloaded", timeout := 30000 }], true, extract)
  | some m =>
      ([{ url := url, waitUntil := some "domcontentloaded", timeout := 30000 }], false,
        { price := none, currency := "$", status := "error",
          message := "Error: Navigation failed: " ++ m, store := "IGA" })

/-- The Coles homepage visit (`price_scrapers.py:177`), attempted first
and continued past on failure. -/
def colesHomeStep : NavStep :=
  { url := "https://www.coles.com.au", waitUntil := some "domcontentloaded", timeout := 15000 }

/-- The Coles navigation (`price_scrapers.py:174-188`): best-effort
homepage goto whose failure is swallowed, then a single product goto with
`wait_until='domcontentloaded'` and timeout 20000; on failure the
exception reaches the outer handler (`price_scrapers.py:329-331`) and the
extraction strategies never run. -/
def colesAdapterNav (env : NavEnv) (url : String) (extract : ScrapeResult) :
    List NavStep × Bool × ScrapeResult :=
  match env { url := url, waitUntil := some "domcontentloaded", timeout := 20000 } with
  | none =>
      ([colesHomeStep, { url := url, waitUntil := some "domcontentloaded", timeout := 20000 }],
        true, extract)
  | some m =>
      ([colesHomeStep, { url := url, waitUntil := some "domcontentloaded", timeout := 20000 }],
        false,
        { price := none, currency := "$", status := "error",
          message := "Error: " ++ m, store := "Coles" })

/-- The Woolworths navigation (`price_scrapers.py:727-728`): a single
goto with `wait_until='domcontentloaded'` and timeout 20000; on failure
the exception reaches the outer handler (`price_scrapers.py:783-785`) and
the extraction strategies never run. -/
def woolworthsAdapterNav (env : NavEnv) (url : String) (extract : ScrapeResult) :
    List NavStep × Bool × ScrapeResult :=
  match env { url := url, waitUntil := some "domcontentloaded", timeout := 20000 } with
  | none =>
      ([{ url := url, waitUntil := some "domcontentloaded", timeout := 20000 }], true, extract)
  | some m =>
      ([{ url := url, waitUntil := some "domcontentloaded", timeout := 20000 }], false,
        { price := none, currency := "$", status := "error",
          message := "Error: " ++ m, store := "Woolworths" })

/-- ASCII lowering, embedding `str.lower()` on the store names used
here. -/
def asciiLower (c : Char) : Char :=
  if 'A' ≤ c && c ≤ 'Z' then Char.ofNat (c.toNat + 32) else c

/-- Lowercased string. -/
def lowerStr (s : String) : String :=
  String.mk (s.toList.map asciiLower)

/-- The branch taken by `get_live_price` (`price_scrapers.py:1010-1025`). -/
inductive Dispatch where
  | iga
  | coles
  | woolworths
  | unsupported (r : ScrapeResult)
deriving DecidableEq, Repr

/-- The dispatch of `get_live_price` (`price_scrapers.py:1010-1025`):
lowercase the store, then test the substrings `iga`, `coles`,
`woolworths` in that order; otherwise synthesize the unsupported-store
error result directly. -/
def getLivePriceDispatch (store : String) : Dispatch :=
  if containsSub "iga".toList (lowerStr store).toList then Dispatch.iga
  else if containsSub "coles".toList (lowerStr store).toList then Dispatch.coles
  else if containsSub "woolworths".toList (lowerStr store).toList then Dispatch.woolworths
  else
    Dispatch.unsupported
      { price := none, currency := "$", status := "error",
        message := "Unsupported store: " ++ lowerStr store, store := lowerStr store }

/-- The goto calls performed for a dispatch outcome: adapter branches
navigate, the unsupported branch performs no browser call at all. -/
def dispatchCalls (env : NavEnv) (url : String) (extract : ScrapeResult) :
    Dispatch → List NavStep
  | Dispatch.iga => (igaAdapterNav env url extract).1
  | Dispatch.coles => (colesAdapterNav env url extract).1
  | Dispatch.woolworths => (woolworthsAdapterNav env url extract).1
  | Dispatch.unsupported _ => []

/-- Outcome of one task of the concurrent batch as observed by
`asyncio.gather(..., return_exceptions=True)`: either the task result or
the exception it raised, captured at the task boundary. -/
inductive TaskOutcome where
  | ok (r : ScrapeResult)
  | exn (msg : String)
deriving DecidableEq, Repr

/-- The per-outcome processing of `scrape_prices_concurrently`
(`price_scrapers.py:1063-1073`): an exception outcome becomes an error
result carrying the exception message and the store of the request at the
same index. -/
def handleOutcome (req : String × String) (o : TaskOutcome) : ScrapeResult :=
  match o with
  | TaskOutcome.ok r => r
  | TaskOutcome.exn m =>
      { price := none, currency := "$", status := "error",
        message := "Exception during scraping: " ++ m, store := req.2 }

/-- Embeds `scrape_prices_concurrently` (`price_scrapers.py:1050-1075`), with
each task abstracted by its outcome function `run`: one task per request
in order, `gather` returns the outcomes in task order regardless of
completion order (the `return_exceptions=True` contract), and the
processing loop pairs outcome `i` with `urls_and_stores[i]`. -/
def scrapePricesConcurrently (reqs : List (String × String))
    (run : String × String → TaskOutcome) : List ScrapeResult :=
  let results := reqs.map run
  (reqs.zip results).map (fun p => handleOutcome p.1 p.2)

/-- An observable browser action of a modal dismissal handler. -/
inductive ModalAction where
  | click (selector : String)
  | escapeKey
  | clickBody
deriving DecidableEq, Repr

/-- First selector of a list for which the page has a visible, clickable
element (the `wait_for_selector` + `is_visible` + `click` try-body of the
handler loops). -/
def firstVisible (env : String → Bool) : List String → Option String
  | [] => none
  | s :: rest => if env s then some s else firstVisible env rest

/-- The `guest_selectors` list of `handle_iga_modal` (`price_scrapers.py:805-814`). -/
def igaGuestSelectors : List String :=
  ["text=\"Browse as guest\"",
   "text=\"Continue as guest\"",
   "text=\"Guest\"",
   "[data-testid=\"guest-button\"]",
   "button:has-text(\"guest\")",
   "button:has-text(\"Guest\")",
   "a:has-text(\"guest\")",
   "a:has-text(\"Guest\")"]

/-- The `close_selectors` list of `handle_iga_modal` (`price_scrapers.py:830-840`). -/
def igaCloseSelectors : List String :=
  ["button[aria-label=\"Close\"]",
   "button[aria-label=\"close\"]",
   ".modal-close",
   ".close-button",
   "button:has-text(\"×\")",
   "button:has-text(\"✕\")",
   "[data-testid=\"close-button\"]",
   "[data-testid=\"modal-close\"]",
   "button[class*=\"close\"]"]

/-- The `close_selectors` list of `handle_woolworths_modal`
(`price_scrapers.py:883-894`). -/
def wooCloseSelectors : List String :=
  ["button[aria-label=\"Close\"]",
   "button[aria-label=\"close\"]",
   ".modal-close",
   ".overlay-close",
   "button:has-text(\"×\")",
   "button:has-text(\"✕\")",
   "[data-testid=\"close-button\"]",
   "[data-testid=\"modal-close\"]",
   "button[class*=\"close\"]",
   ".close"]

/-- The `privacy_selectors` list of `handle_woolworths_modal`
(`price_scrapers.py:918-924`). -/
def wooPrivacySelectors : List String :=
  ["text=\"Accept\"",
   "text=\"Accept All\"",
   "button:has-text(\"Accept\")",
   "[data-testid=\"accept-cookies\"]",
   "button[class*=\"accept\"]"]

/-- Embeds `handle_iga_modal` (`price_scrapers.py:795-873`) as its action trace:
strategy 1 clicks the first visible guest control and stops; otherwise
strategy 2 clicks the first visible close control and stops; otherwise
the handler presses Escape (which does not set `modal_handled`) and then
clicks outside the modal area. -/
def handleIgaModal (env : String → Bool) : List ModalAction :=
  match firstVisible env igaGuestSelectors with
  | some s => [ModalAction.click s]
  | none =>
      match firstVisible env igaCloseSelectors with
      | some s => [ModalAction.click s]
      | none => [ModalAction.escapeKey, ModalAction.clickBody]

/-- The cookie-consent accept step of `handle_woolworths_modal`
(`price_scrapers.py:917-935`): click the first visible accept control,
if any. -/
def wooCookieStep (env : String → Bool) : List ModalAction :=
  match firstVisible env wooPrivacySelectors with
  | some s => [ModalAction.click s]
  | none => []

/-- Embeds `handle_woolworths_modal` (`price_scrapers.py:875-938`) as its action
trace: strategy 1 clicks the first visible close control and sets
`modal_handled`; strategy 2 presses Escape only when not handled;
strategy 3, the cookie-consent accept loop, is not guarded by
`modal_handled` and always runs. -/
def handleWooModal (env : String → Bool) : List ModalAction :=
  (match firstVisible env wooCloseSelectors with
    | some s => [ModalAction.click s]
    | none => []) ++
  (if (firstVisible env wooCloseSelectors).isSome then [] else [ModalAction.escapeKey]) ++
  wooCookieStep env

/-! ### Helper lemmas -/

theorem acceptPrice_some_range (v w : ℚ) (h : acceptPrice v = some w) :
    mkRat 1 100 ≤ w ∧ w ≤ mkRat 99999 100 := by
  unfold acceptPrice at h
  split at h
  · rename_i hr
    cases h
    exact hr
  · cases h

theorem tryPatterns_some_range (ms : List (List Char → Option (List Char))) (s : List Char)
    (v : ℚ) (h : tryPatterns ms s = some v) : mkRat 1 100 ≤ v ∧ v ≤ mkRat 99999 100 := by
  induction ms with
  | nil => simp [tryPatterns] at h
  | cons m ms ih =>
      simp only [tryPatterns] at h
      split at h
      · split at h
        · rename_i w hw
          cases h
          exact acceptPrice_some_range _ _ hw
        · exact ih h
      · exact ih h

theorem firstAccepted_some_range (ts : List (List Char)) (v : ℚ)
    (h : firstAccepted ts = some v) : mkRat 1 100 ≤ v ∧ v ≤ mkRat 99999 100 := by
  induction ts with
  | nil => simp [firstAccepted] at h
  | cons t ts ih =>
      simp only [firstAccepted] at h
      split at h
      · rename_i w hw
        cases h
        exact acceptPrice_some_range _ _ hw
      · exact ih h

theorem cleanPriceText_some_range (s : String) (v : ℚ) (h : cleanPriceText s = some v) :
    mkRat 1 100 ≤ v ∧ v ≤ mkRat 99999 100 := by
  unfold cleanPriceText at h
  cases hl : s.toList with
  | nil =>
      rw [hl] at h
      cases h
  | cons c t =>
      rw [hl] at h
      simp only at h
      cases ht : tryPatterns pricePatterns (cleanedText (c :: t)) with
      | some w =>
          rw [ht] at h
          cases h
          exact tryPatterns_some_range _ _ _ ht
      | none =>
          rw [ht] at h
          exact firstAccepted_some_range _ _ h

theorem isPrefixOf_self (l : List Char) : l.isPrefixOf l = true := by
  induction l with
  | nil => rfl
  | cons a t ih => simp [List.isPrefixOf, ih]

theorem isPrefixOf_append_left (n m rest : List Char) (h : n.isPrefixOf m = true) :
    n.isPrefixOf (m ++ rest) = true := by
  induction n generalizing m with
  | nil => simp [List.isPrefixOf]
  | cons a as ih =>
      cases m with
      | nil => simp [List.isPrefixOf] at h
      | cons b bs =>
          simp only [List.cons_append, List.isPrefixOf, Bool.and_eq_true] at h ⊢
          exact ⟨h.1, ih bs h.2⟩

theorem containsSub_of_isPrefixOf (n h : List Char) (hp : n.isPrefixOf h = true) :
    containsSub n h = true := by
  cases h with
  | nil =>
      cases n with
      | nil => rfl
      | cons a t => simp [List.isPrefixOf] at hp
  | cons a t => simp [containsSub, hp]

theorem containsSub_append_right (pre l : List Char) : containsSub l (pre ++ l) = true := by
  induction pre with
  | nil => exact containsSub_of_isPrefixOf l l (isPrefixOf_self l)
  | cons a t ih =>
      cases l with
      | nil => simp [containsSub]
      | cons b bs => simp [containsSub, ih]

theorem zip_map_self {α β γ : Type} (reqs : List α) (run : α → β) (g : α → β → γ) :
    (reqs.zip (reqs.map run)).map (fun p => g p.1 p.2) = reqs.map (fun r => g r (run r)) := by
  induction reqs with
  | nil => rfl
  | cons a t ih => simp only [List.map_cons, List.zip_cons_cons, ih]

theorem scrape_eq_map (reqs : List (String × String)) (run : String × String → TaskOutcome) :
    scrapePricesConcurrently reqs run = reqs.map (fun r => handleOutcome r (run r)) := by
  unfold scrapePricesConcurrently
  exact zip_map_self reqs run handleOutcome

theorem tryPatterns_eq_filterMap_head (ms : List (List Char → Option (List Char)))
    (s : List Char) :
    tryPatterns ms s =
      (ms.filterMap
        (fun m => (searchFrom m s).bind (fun g => acceptPrice (ratOfNumToken g)))).head? := by
  induction ms with
  | nil => rfl
  | cons m ms ih =>
      simp only [tryPatterns, List.filterMap_cons]
      split
      · rename_i g hs
        rw [hs, Option.some_bind]
        split
        · rename_i w ha
          rw [ha]
          rfl
        · rename_i ha
          rw [ha]
          exact ih
      · rename_i hs
        rw [hs, Option.none_bind]
        exact ih

theorem firstAccepted_eq_filterMap_head (ts : List (List Char)) :
    firstAccepted ts = (ts.filterMap (fun t => acceptPrice (ratOfNumToken t))).head? := by
  induction ts with
  | nil => rfl
  | cons t ts ih =>
      simp only [firstAccepted, List.filterMap_cons]
      split
      · rename_i w ha
        rw [ha]
        rfl
      · rename_i ha
        rw [ha]
        exact ih

/-! ### Claim theorems -/

/-- C6: whenever `clean_price_text` returns a value, that value lies in
the interval from 0.01 to 999.99; it never returns a number outside that
range. -/
theorem normalize_output_in_range (s : String) (v : ℚ) (h : cleanPriceText s = some v) :
    mkRat 1 100 ≤ v ∧ v ≤ mkRat 99999 100 :=
  cleanPriceText_some_range s v h

/-- Witness for C6 at the concrete input "AUD 5". -/
theorem normalize_output_in_range_witness :
    cleanPriceText "AUD 5" = some (mkRat 5 1) ∧ mkRat 1 100 ≤ mkRat 5 1 ∧ mkRat 5 1 ≤ mkRat 99999 100 :=
  ⟨by decide, normalize_output_in_range "AUD 5" (mkRat 5 1) (by decide)⟩

/-- C7: `clean_price_text` applies its patterns in the fixed source
priority order (currency-prefixed with cents, currency-prefixed integer,
suffixed currency, alternate currency code, bare decimal, bare integer),
accepting the first pattern whose matched number parses to an in-range
value, and otherwise falls back to scanning all numeric substrings for
the first in-range one: it agrees everywhere with the normalizer restated
from the specification wording. -/
theorem cleanPriceText_eq_normalizeSpec (s : String) : cleanPriceText s = normalizeSpec s := by
  unfold cleanPriceText normalizeSpec
  cases hl : s.toList with
  | nil => rfl
  | cons c t =>
      simp only
      rw [tryPatterns_eq_filterMap_head, firstAccepted_eq_filterMap_head]
      cases List.filterMap
          (fun m => (searchFrom m (cleanedText (c :: t))).bind
            (fun g => acceptPrice (ratOfNumToken g))) pricePatterns with
      | nil => rfl
      | cons v vs => rfl

/-- C10: the digit patterns of `clean_price_text` never span a comma, so
on the thousands-separated input the normalizer matches only the first
digit group after the currency symbol and returns 1, an in-range value
unrelated to the displayed 1234. -/
theorem cleanPriceText_thousands_comma :
    cleanPriceText "$1,234.00" = some (mkRat 1 1) ∧ mkRat 1 1 ≠ mkRat 1234 1 := by
  decide

/-- C1 counterexample: the IGA adapter builds its result from the bare
regex with no range validation, so from the page text "$1000.00" it
produces a success result whose price 1000 is outside the claimed
interval. -/
theorem iga_price_out_of_range_cex :
    (igaResultOfTexts ["$1000.00"]).price = some (mkRat 1000 1) ∧
    (igaResultOfTexts ["$1000.00"]).status = "success" ∧
    ¬ (mkRat 1 100 ≤ mkRat 1000 1 ∧ mkRat 1000 1 ≤ mkRat 99999 100) := by
  decide

/-- C1 amended: a present price lies in the interval from 0.01 to 999.99
for the Coles and Woolworths adapters, whose price comes from
`clean_price_text`; the IGA adapter performs no range validation. -/
theorem normalizer_adapter_price_in_range (pt : String) (v : ℚ) :
    ((colesResultOfPriceText pt).price = some v → mkRat 1 100 ≤ v ∧ v ≤ mkRat 99999 100) ∧
    ((woolworthsResultOfPriceText pt).price = some v → mkRat 1 100 ≤ v ∧ v ≤ mkRat 99999 100) := by
  constructor
  · intro h
    unfold colesResultOfPriceText at h
    cases hc : cleanPriceText pt with
    | none =>
        rw [hc] at h
        simp at h
    | some w =>
        rw [hc] at h
        simp at h
        cases h
        exact cleanPriceText_some_range pt v hc
  · intro h
    unfold woolworthsResultOfPriceText at h
    cases hc : cleanPriceText pt with
    | none =>
        rw [hc] at h
        simp at h
    | some w =>
        rw [hc] at h
        simp at h
        cases h
        exact cleanPriceText_some_range pt v hc

/-- Witness for the amended C1 at the concrete price text "$12.34". -/
theorem normalizer_adapter_price_in_range_witness :
    (colesResultOfPriceText "$12.34").price = some (mkRat 1234 100) ∧
    mkRat 1 100 ≤ mkRat 1234 100 ∧ mkRat 1234 100 ≤ mkRat 99999 100 :=
  ⟨by decide, (normalizer_adapter_price_in_range "$12.34" (mkRat 1234 100)).1 (by decide)⟩

/-- C2: the concurrent scraper returns exactly one result per request,
and the result at each index is the processed outcome of the request at
the same index, in input order, whatever the individual outcomes are. -/
theorem scrape_concurrently_length_order (reqs : List (String × String))
    (run : String × String → TaskOutcome) :
    (scrapePricesConcurrently reqs run).length = reqs.length ∧
    ∀ i : Nat, (scrapePricesConcurrently reqs run).get? i =
      (reqs.get? i).map (fun r => handleOutcome r (run r)) := by
  rw [scrape_eq_map]
  exact ⟨List.length_map _ _, fun i => List.get?_map _ _ _⟩

/-- C3: a request whose task raises is converted, at its own index, into
an error-status result whose message carries the exception message and
whose store field is that request's store string; the exception never
escapes the returned list. -/
theorem scrape_concurrently_exception_isolated (reqs : List (String × String))
    (run : String × String → TaskOutcome) (i : Nat) (url store m : String)
    (h1 : reqs.get? i = some (url, store)) (h2 : run (url, store) = TaskOutcome.exn m) :
    (scrapePricesConcurrently reqs run).get? i =
      some { price := none, currency := "$", status := "error",
             message := "Exception during scraping: " ++ m, store := store } ∧
    containsSub m.toList ("Exception during scraping: " ++ m).toList = true := by
  constructor
  · rw [scrape_eq_map, List.get?_map, h1]
    simp [handleOutcome, h2]
  · have hd : ("Exception during scraping: " ++ m).toList =
        "Exception during scraping: ".toList ++ m.toList := rfl
    rw [hd]
    exact containsSub_append_right _ _

/-- Witness for C3: a single failing request in a one-element batch. -/
theorem scrape_concurrently_exception_isolated_witness :
    (scrapePricesConcurrently [("u", "IGA")] (fun _ => TaskOutcome.exn "boom")).get? 0 =
      some { price := none, currency := "$", status := "error",
             message := "Exception during scraping: " ++ "boom", store := "IGA" } ∧
    containsSub "boom".toList ("Exception during scraping: " ++ "boom").toList = true :=
  scrape_concurrently_exception_isolated [("u", "IGA")] (fun _ => TaskOutcome.exn "boom")
    0 "u" "IGA" "boom" (by decide) rfl

/-- A placeholder extraction result used where the extraction phase is
irrelevant to the statement. -/
def blankResult : ScrapeResult :=
  { price := none, currency := "$", status := "error", message := "", store := "" }

/-- C4 counterexample: with every goto failing, each live adapter makes a
single navigation attempt on the product URL (Coles adds only the
best-effort homepage visit), never a three-attempt escalating ladder, and
the resulting IGA error message does not mention NavigationTimeout. -/
theorem navigation_ladder_cex :
    (igaAdapterNav (fun _ => some "net timeout") "u" blankResult).1.length = 1 ∧
    (colesAdapterNav (fun _ => some "net timeout") "u" blankResult).1 =
      [colesHomeStep, { url := "u", waitUntil := some "domcontentloaded", timeout := 20000 }] ∧
    (woolworthsAdapterNav (fun _ => some "net timeout") "u" blankResult).1.length = 1 ∧
    containsSub "NavigationTimeout".toList
      (igaAdapterNav (fun _ => some "net timeout") "u" blankResult).2.2.message.toList
      = false := by
  decide

/-- C4 amended: each adapter performs exactly one navigation attempt to
the target URL with the domcontentloaded wait condition (IGA timeout
30000 ms; Coles 20000 ms, preceded by a best-effort homepage visit at
15000 ms whose failure is ignored; Woolworths 20000 ms); if that attempt
fails, the adapter reports an error-status result and its extraction
strategies do not run. -/
theorem navigation_single_attempt (env : NavEnv) (url : String) (extract : ScrapeResult) :
    (igaAdapterNav env url extract).1 =
      [{ url := url, waitUntil := some "domcontentloaded", timeout := 30000 }] ∧
    (colesAdapterNav env url extract).1 =
      [colesHomeStep, { url := url, waitUntil := some "domcontentloaded", timeout := 20000 }] ∧
    (woolworthsAdapterNav env url extract).1 =
      [{ url := url, waitUntil := some "domcontentloaded", timeout := 20000 }] ∧
    (∀ m, env { url := url, waitUntil := some "domcontentloaded", timeout := 30000 } = some m →
      (igaAdapterNav env url extract).2 =
        (false, { price := none, currency := "$", status := "error",
                  message := "Error: Navigation failed: " ++ m, store := "IGA" })) ∧
    (∀ m, env { url := url, waitUntil := some "domcontentloaded", timeout := 20000 } = some m →
      (colesAdapterNav env url extract).2 =
        (false, { price := none, currency := "$", status := "error",
                  message := "Error: " ++ m, store := "Coles" }) ∧
      (woolworthsAdapterNav env url extract).2 =
        (false, { price := none, currency := "$", status := "error",
                  message := "Error: " ++ m, store := "Woolworths" })) := by
  refine ⟨?_, ?_, ?_, ?_, ?_⟩
  · unfold igaAdapterNav
    cases env { url := url, waitUntil := some "domcontentloaded", timeout := 30000 } <;> rfl
  · unfold colesAdapterNav
    cases env { url := url, waitUntil := some "domcontentloaded", timeout := 20000 } <;> rfl
  · unfold woolworthsAdapterNav
    cases env { url := url, waitUntil := some "domcontentloaded", timeout := 20000 } <;> rfl
  · intro m hm
    unfold igaAdapterNav
    rw [hm]
  · intro m hm
    constructor
    · unfold colesAdapterNav
      rw [hm]
    · unfold woolworthsAdapterNav
      rw [hm]

/-- Witness for the amended C4: a concrete failing environment. -/
theorem navigation_single_attempt_witness :
    (igaAdapterNav (fun _ => some "boom") "u" blankResult).2 =
      (false, { price := none, currency := "$", status := "error",
                message := "Error: Navigation failed: " ++ "boom", store := "IGA" }) :=
  (navigation_single_attempt (fun _ => some "boom") "u" blankResult).2.2.2.1 "boom" rfl

/-- C5: a store string whose lowercased form contains none of the
substrings iga, coles, woolworths dispatches to the synthesized
unsupported-store error result, whose message contains Unsupported and
whose store field is the lowercased input; no goto call is performed. -/
theorem unsupported_store_no_navigation (store : String)
    (h1 : containsSub "iga".toList (lowerStr store).toList = false)
    (h2 : containsSub "coles".toList (lowerStr store).toList = false)
    (h3 : containsSub "woolworths".toList (lowerStr store).toList = false) :
    getLivePriceDispatch store =
      Dispatch.unsupported
        { price := none, currency := "$", status := "error",
          message := "Unsupported store: " ++ lowerStr store, store := lowerStr store } ∧
    (∀ env url extract,
      dispatchCalls env url extract (getLivePriceDispatch store) = []) ∧
    containsSub "Unsupported".toList
      ("Unsupported store: " ++ lowerStr store).toList = true := by
  have hd : getLivePriceDispatch store =
      Dispatch.unsupported
        { price := none, currency := "$", status := "error",
          message := "Unsupported store: " ++ lowerStr store, store := lowerStr store } := by
    unfold getLivePriceDispatch
    rw [h1, h2, h3]
    rfl
  refine ⟨hd, ?_, ?_⟩
  · intro env url extract
    rw [hd]
    rfl
  · have hsplit : ("Unsupported store: " ++ lowerStr store).toList =
        "Unsupported store: ".toList ++ (lowerStr store).toList := rfl
    rw [hsplit]
    exact containsSub_of_isPrefixOf _ _
      (isPrefixOf_append_left _ "Unsupported store: ".toList _ (by decide))

/-- Witness for C5 at the concrete store string Mars. -/
theorem unsupported_store_no_navigation_witness :
    getLivePriceDispatch "Mars" =
      Dispatch.unsupported
        { price := none, currency := "$", status := "error",
          message := "Unsupported store: " ++ lowerStr "Mars", store := lowerStr "Mars" } :=
  (unsupported_store_no_navigation "Mars" (by decide) (by decide) (by decide)).1

/-- C9: `get_live_price` tests the lowercased store for the substrings
iga, then coles, then woolworths, in that fixed order, so when several
substrings are present the earlier-tested adapter wins. -/
theorem dispatch_substring_priority (store : String) :
    (containsSub "iga".toList (lowerStr store).toList = true →
      getLivePriceDispatch store = Dispatch.iga) ∧
    (containsSub "iga".toList (lowerStr store).toList = false →
      containsSub "coles".toList (lowerStr store).toList = true →
      getLivePriceDispatch store = Dispatch.coles) ∧
    (containsSub "iga".toList (lowerStr store).toList = false →
      containsSub "coles".toList (lowerStr store).toList = false →
      containsSub "woolworths".toList (lowerStr store).toList = true →
      getLivePriceDispatch store = Dispatch.woolworths) := by
  refine ⟨?_, ?_, ?_⟩
  · intro h1
    unfold getLivePriceDispatch
    rw [h1]
    rfl
  · intro h1 h2
    unfold getLivePriceDispatch
    rw [h1, h2]
    rfl
  · intro h1 h2 h3
    unfold getLivePriceDispatch
    rw [h1, h2, h3]
    rfl

/-- Witness for C9: a store naming all three wins for IGA, one naming the
last two wins for Coles. -/
theorem dispatch_substring_priority_witness :
    getLivePriceDispatch "IGA Coles Woolworths" = Dispatch.iga ∧
    getLivePriceDispatch "Coles Woolworths" = Dispatch.coles :=
  ⟨(dispatch_substring_priority "IGA Coles Woolworths").1 (by decide),
   (dispatch_substring_priority "Coles Woolworths").2.1 (by decide) (by decide)⟩

/-- C8: in each modal handler the first dismissal sub-strategy that finds
a visible, clickable match short-circuits the remaining dismissal
sub-strategies, while the Woolworths cookie-consent accept step always
runs last regardless of whether an earlier sub-strategy succeeded. -/
theorem modal_short_circuit_except_cookie (env : String → Bool) :
    (∀ s, firstVisible env igaGuestSelectors = some s →
      handleIgaModal env = [ModalAction.click s]) ∧
    (∀ s, firstVisible env igaGuestSelectors = none →
      firstVisible env igaCloseSelectors = some s →
      handleIgaModal env = [ModalAction.click s]) ∧
    (∀ s, firstVisible env wooCloseSelectors = some s →
      handleWooModal env = ModalAction.click s :: wooCookieStep env ∧
      ModalAction.escapeKey ∉ handleWooModal env) ∧
    (firstVisible env wooCloseSelectors = none →
      handleWooModal env = ModalAction.escapeKey :: wooCookieStep env) := by
  refine ⟨?_, ?_, ?_, ?_⟩
  · intro s hs
    unfold handleIgaModal
    rw [hs]
  · intro s hg hs
    unfold handleIgaModal
    rw [hg, hs]
  · intro s hs
    have htrace : handleWooModal env = ModalAction.click s :: wooCookieStep env := by
      unfold handleWooModal
      rw [hs]
      rfl
    refine ⟨htrace, ?_⟩
    rw [htrace]
    unfold wooCookieStep
    cases firstVisible env wooPrivacySelectors <;> simp
  · intro hs
    unfold handleWooModal
    rw [hs]
    rfl

/-- Witness for C8: an environment where only the first Woolworths close
selector matches. -/
theorem modal_short_circuit_except_cookie_witness :
    handleWooModal (fun s => s == "button[aria-label=\"Close\"]") =
      ModalAction.click "button[aria-label=\"Close\"]"
        :: wooCookieStep (fun s => s == "button[aria-label=\"Close\"]") ∧
    ModalAction.escapeKey ∉ handleWooModal (fun s => s == "button[aria-label=\"Close\"]") :=
  (modal_short_circuit_except_cookie (fun s => s == "button[aria-label=\"Close\"]")).2.2.1
    "button[aria-label=\"Close\"]" (by decide)

end PriceScrapers
